import Mathlib

/-
Verification of the planogram compliance engine
(src/computer-vision/src/demo/backend/{models,config,coordinate_system,planogram_analyzer}.py).

Shallow embedding conventions:
* Python floats are modelled as rationals; Python int(x) truncation is pyInt.
* Python dicts keyed by strings are association lists with first-match lookup
  (Python dicts have unique keys, so first-match lookup agrees).
* Python counts are naturals: the tallies are built by repeated +1 and the
  configuration validator rejects non-positive expected counts.
* A Python set of item types is embedded as an ordered duplicate-free list;
  the properties proved do not depend on the iteration order of the set.
-/

namespace Planogram

/-- models.py BoundingBox: axis-aligned rectangle given by two corners. -/
structure BoundingBox where
  x1 : ℚ
  y1 : ℚ
  x2 : ℚ
  y2 : ℚ
deriving DecidableEq

/-- models.py BoundingBox.center. -/
def BoundingBox.center (b : BoundingBox) : ℚ × ℚ :=
  ((b.x1 + b.x2) / 2, (b.y1 + b.y2) / 2)

/-- models.py BoundingBox.area. -/
def BoundingBox.area (b : BoundingBox) : ℚ :=
  (b.x2 - b.x1) * (b.y2 - b.y1)

/-- models.py BoundingBox.iou, intersection part: zero unless the clipped
corners are strictly ordered. -/
def BoundingBox.interArea (b o : BoundingBox) : ℚ :=
  let x1_inter := max b.x1 o.x1
  let y1_inter := max b.y1 o.y1
  let x2_inter := min b.x2 o.x2
  let y2_inter := min b.y2 o.y2
  if x1_inter < x2_inter ∧ y1_inter < y2_inter then
    (x2_inter - x1_inter) * (y2_inter - y1_inter)
  else
    0

/-- models.py BoundingBox.iou, union part. -/
def BoundingBox.unionArea (b o : BoundingBox) : ℚ :=
  b.area + o.area - b.interArea o

/-- models.py BoundingBox.iou: guarded division, 0.0 when the union is not
positive. -/
def BoundingBox.iou (b o : BoundingBox) : ℚ :=
  if 0 < b.unionArea o then b.interArea o / b.unionArea o else 0

/-- models.py DetectedItem (the mask array itself carries no geometry used by
the engine; the polygon is the list of its vertex coordinates). -/
structure DetectedItem where
  class_id : ℤ
  class_name : String
  confidence : ℚ
  bbox : BoundingBox
  section_id : Option String := none
  mask_polygon : List (ℚ × ℚ) := []
deriving DecidableEq

/-- models.py DetectedItem.center: polygon centroid (arithmetic mean of the
vertices) when a polygon with at least 3 points exists, else the bounding box
center.  The Python guard `self.mask_polygon and len(self.mask_polygon) >= 3`
is equivalent to `3 ≤ length`. -/
def DetectedItem.center (it : DetectedItem) : ℚ × ℚ :=
  if 3 ≤ it.mask_polygon.length then
    ((it.mask_polygon.map Prod.fst).sum / (it.mask_polygon.length : ℚ),
     (it.mask_polygon.map Prod.snd).sum / (it.mask_polygon.length : ℚ))
  else
    it.bbox.center

/-- models.py PlanogramSection.  NOTE: this revision of the dataclass has no
expected_visible_count field (config.py and planogram_analyzer.py nevertheless
refer to one; see the configuration-loading theorems below). -/
structure PlanogramSection where
  section_id : String
  name : String
  expected_items : List String
  expected_count : ℕ
  position : BoundingBox
  priority : String := "Medium"
deriving DecidableEq

/-- models.py MisplacedItem. -/
structure MisplacedItem where
  detected_item : DetectedItem
  expected_section : String
  actual_section : Option String
  distance_from_expected : ℚ
deriving DecidableEq

/-- models.py DetailedInventoryStatus (fields exactly as the dataclass in
src: no expected_visible_items field; status and item_statuses are required). -/
structure DetailedInventoryStatus where
  section_id : String
  section_name : String
  expected_items : List (String × ℕ)
  detected_items : List (String × ℕ)
  misplaced_items : List (String × ℕ)
  status : String
  item_statuses : List (String × String)
deriving DecidableEq

/-- Python dict.get(key, 0) on a string-keyed count dict. -/
def dictGet (d : List (String × ℕ)) (k : String) : ℕ :=
  (d.lookup k).getD 0

/-- The set union of the three key sets in get_item_breakdown, embedded as an
ordered duplicate-free list (Python set iteration order is unspecified; no
proved property depends on this order). -/
def allItemTypes (s : DetailedInventoryStatus) : List String :=
  (s.expected_items.map Prod.fst ++ s.detected_items.map Prod.fst ++
    s.misplaced_items.map Prod.fst).dedup

/-- The availability classification block inside
models.py DetailedInventoryStatus.get_item_breakdown (lines 242-254):
note there is no Low Stock branch in this revision. -/
def availabilityStatus (expected detected misplaced : ℕ) : String :=
  let available_total := detected + misplaced
  if 0 < expected then
    if available_total = 0 then "Sold Out"
    else if detected = 0 ∧ 0 < misplaced then "Misplaced Only"
    else if detected < expected ∧ expected ≤ available_total then "Partially Misplaced"
    else "Available"
  else
    "Not Expected"

/-- One row of the per-item-type breakdown produced by get_item_breakdown. -/
structure BreakdownRow where
  item_type : String
  expected : ℕ
  detected_in_section : ℕ
  found_elsewhere : ℕ
  total_available : ℕ
  status : String
  availability_status : String
  shortage : ℕ
  surplus : ℕ
deriving DecidableEq

/-- models.py DetailedInventoryStatus.get_item_breakdown.  Nat subtraction
truncates at zero, matching the max(0, ...) in the source. -/
def DetailedInventoryStatus.get_item_breakdown
    (s : DetailedInventoryStatus) : List BreakdownRow :=
  (allItemTypes s).map fun item_type =>
    let expected := dictGet s.expected_items item_type
    let detected := dictGet s.detected_items item_type
    let misplaced := dictGet s.misplaced_items item_type
    let status := (s.item_statuses.lookup item_type).getD "Unknown"
    let available_total := detected + misplaced
    { item_type := item_type
      expected := expected
      detected_in_section := detected
      found_elsewhere := misplaced
      total_available := available_total
      status := status
      availability_status := availabilityStatus expected detected misplaced
      shortage := expected - available_total
      surplus := available_total - expected }

/-! ## Coordinate system (coordinate_system.py) -/

/-- Python int(x): truncation toward zero. -/
def pyInt (q : ℚ) : ℤ :=
  if q < 0 then Int.ceil q else Int.floor q

/-- The transformation record returned by
coordinate_system.py CoordinateSystem.image_to_reference_transform. -/
structure Transform where
  scale : ℚ
  offset_x : ℤ
  offset_y : ℤ
  scaled_width : ℤ
  scaled_height : ℤ
deriving DecidableEq

/-- coordinate_system.py image_to_reference_transform for an image of native
size w x h.  Reference frame is 1080 x 1440; Python // on the nonnegative
offsets is floor division. -/
def image_to_reference_transform (w h : ℕ) : Transform :=
  let scale_w := (1080 : ℚ) / (w : ℚ)
  let scale_h := (1440 : ℚ) / (h : ℚ)
  let scale := min scale_w scale_h
  let scaled_width := pyInt ((w : ℚ) * scale)
  let scaled_height := pyInt ((h : ℚ) * scale)
  { scale := scale
    offset_x := Int.fdiv (1080 - scaled_width) 2
    offset_y := Int.fdiv (1440 - scaled_height) 2
    scaled_width := scaled_width
    scaled_height := scaled_height }

/-- coordinate_system.py original_to_reference: scale each corner with int()
truncation, then add the centering offset. -/
def original_to_reference (b : BoundingBox) (w h : ℕ) : BoundingBox :=
  let t := image_to_reference_transform w h
  { x1 := ((pyInt (b.x1 * t.scale) + t.offset_x : ℤ) : ℚ)
    y1 := ((pyInt (b.y1 * t.scale) + t.offset_y : ℤ) : ℚ)
    x2 := ((pyInt (b.x2 * t.scale) + t.offset_x : ℤ) : ℚ)
    y2 := ((pyInt (b.y2 * t.scale) + t.offset_y : ℤ) : ℚ) }

/-- coordinate_system.py reference_to_original: subtract the offset, divide by
the scale, truncate with int(). -/
def reference_to_original (b : BoundingBox) (w h : ℕ) : BoundingBox :=
  let t := image_to_reference_transform w h
  { x1 := ((pyInt ((b.x1 - (t.offset_x : ℚ)) / t.scale)) : ℚ)
    y1 := ((pyInt ((b.y1 - (t.offset_y : ℚ)) / t.scale)) : ℚ)
    x2 := ((pyInt ((b.x2 - (t.offset_x : ℚ)) / t.scale)) : ℚ)
    y2 := ((pyInt ((b.y2 - (t.offset_y : ℚ)) / t.scale)) : ℚ) }

/-! ## Configuration loading (config.py) -/

/-- One section record of the configuration document consumed by
config.py PlanogramConfig._parse_config. -/
structure SectionData where
  section_id : String
  name : String
  expected_items : List String
  expected_count : ℕ
  expected_visible_count : Option ℕ
  position : BoundingBox
  priority : Option String
deriving DecidableEq

/-- The field names of the PlanogramSection dataclass in models.py. -/
def planogramSectionFields : List String :=
  ["section_id", "name", "expected_items", "expected_count", "position", "priority"]

/-- The keyword names passed to PlanogramSection(...) by
config.py _parse_config (lines 90-98); the expected_visible_count keyword is
always passed, via section_data.get with the expected_count default. -/
def parseSectionKwargs : List String :=
  ["section_id", "name", "expected_items", "expected_count",
   "expected_visible_count", "position", "priority"]

/-- The value config.py line 95 computes for the expected_visible_count
keyword: the documented backward-compatibility default. -/
def parsedVisibleCount (d : SectionData) : ℕ :=
  d.expected_visible_count.getD d.expected_count

/-- The PlanogramSection(...) constructor call in _parse_config.  A Python
dataclass call raises TypeError when a keyword is not among the dataclass
fields, so the call is modelled as fallible: it succeeds only if every keyword
used is a declared field. -/
def mkSectionFromConfig (d : SectionData) : Except String PlanogramSection :=
  if parseSectionKwargs ⊆ planogramSectionFields then
    Except.ok
      { section_id := d.section_id
        name := d.name
        expected_items := d.expected_items
        expected_count := d.expected_count
        position := d.position
        priority := d.priority.getD "Medium" }
  else
    Except.error "TypeError: unexpected keyword argument expected_visible_count"

/-- config.py _parse_config over the sections array: the Python loop raises at
the first failing constructor call. -/
def parseConfigSections (ds : List SectionData) : Except String (List PlanogramSection) :=
  ds.mapM mkSectionFromConfig

/-! ## Availability classification (claim C1) -/

/-- Modelled from the spec: the availability table of section 4.5 with its Low
Stock row (detected at most half of expected_visible and nothing misplaced).
The revision of DetailedInventoryStatus in src lacks both this row and the
expected_visible data it needs, although the callers in
planogram_analyzer.py and app.py expect the Low Stock status. -/
def specAvailabilityStatus (expected expected_visible detected misplaced : ℕ) : String :=
  if expected = 0 then "Not Expected"
  else if detected + misplaced = 0 then "Sold Out"
  else if detected = 0 ∧ 0 < misplaced then "Misplaced Only"
  else if detected < expected ∧ expected ≤ detected + misplaced then "Partially Misplaced"
  else if (detected : ℚ) ≤ (expected_visible : ℚ) * 0.5 ∧ misplaced = 0 then "Low Stock"
  else "Available"

/-! ## Planogram analyzer (planogram_analyzer.py) and configuration queries -/

/-- config.py get_sections_for_item: all sections listing the class among
their expected items. -/
def get_sections_for_item (sections : List PlanogramSection) (item_class : String) :
    List PlanogramSection :=
  sections.filter (fun s => s.expected_items.contains item_class)

/-- planogram_analyzer.py _point_in_section, the same inclusive containment
test as config.py find_section_by_position. -/
def point_in_section (x y : ℚ) (s : PlanogramSection) : Bool :=
  decide (s.position.x1 ≤ x ∧ x ≤ s.position.x2 ∧
    s.position.y1 ≤ y ∧ y ≤ s.position.y2)

/-- config.py find_section_by_position: linear scan, first declared section
containing the point wins. -/
def find_section_by_position (sections : List PlanogramSection) (x y : ℚ) :
    Option PlanogramSection :=
  sections.find? (fun s => point_in_section x y s)

/-- planogram_analyzer.py _assign_items_to_sections. -/
def assign_items_to_sections (sections : List PlanogramSection)
    (items : List DetectedItem) : List DetectedItem :=
  items.map fun it =>
    { it with
        section_id :=
          (find_section_by_position sections it.center.1 it.center.2).map
            PlanogramSection.section_id }

/-- Squared Euclidean distance from a point to a section region center.
Lines 222-226 of planogram_analyzer.py compare square roots of these values;
the square root is strictly monotone on nonnegative arguments, so comparing
the squares selects the same sections. -/
def distSq (x y : ℚ) (s : PlanogramSection) : ℚ :=
  let section_center_x := (s.position.x1 + s.position.x2) / 2
  let section_center_y := (s.position.y1 + s.position.y2) / 2
  (x - section_center_x) ^ 2 + (y - section_center_y) ^ 2

/-- The loop of _find_closest_expected_section: min_distance starts at
infinity (accumulator none) and only a strictly smaller distance replaces the
current best, so the first minimiser in order wins. -/
def closestLoop (x y : ℚ) : List PlanogramSection →
    Option (PlanogramSection × ℚ) → Option (PlanogramSection × ℚ)
  | [], acc => acc
  | s :: rest, acc =>
    let d := distSq x y s
    let acc' :=
      match acc with
      | none => some (s, d)
      | some (b, db) => if d < db then some (s, d) else some (b, db)
    closestLoop x y rest acc'

/-- planogram_analyzer.py _find_closest_expected_section. -/
def find_closest_expected_section (x y : ℚ) (sections : List PlanogramSection) :
    Option PlanogramSection :=
  (closestLoop x y sections none).map Prod.fst

/-- The body of the _find_misplaced_items loop for a single detected item:
none when the item is skipped (class not in the planogram) or correctly
placed, otherwise the misplaced record.  Line 181 of the source hard-codes
distance_from_expected to 0.0. -/
def misplacedForItem (sections : List PlanogramSection) (item : DetectedItem) :
    Option MisplacedItem :=
  let expected_sections := get_sections_for_item sections item.class_name
  if expected_sections.isEmpty then none
  else
    let cx := item.center.1
    let cy := item.center.2
    if expected_sections.any (fun s => point_in_section cx cy s) then none
    else
      some
        { detected_item := item
          expected_section :=
            match find_closest_expected_section cx cy expected_sections with
            | some s => s.section_id
            | none => "Unknown"
          actual_section := item.section_id
          distance_from_expected := 0 }

/-- planogram_analyzer.py _find_misplaced_items: one loop iteration per item,
appending at most one misplaced record each. -/
def find_misplaced_items (sections : List PlanogramSection)
    (items : List DetectedItem) : List MisplacedItem :=
  items.filterMap (misplacedForItem sections)

/-- The expected-count distribution of _calculate_detailed_inventory_status
(lines 268-277): integer base share of the section total plus one for the
first remainder item types, in declaration order. -/
def distributeExpected (total : ℕ) (types : List String) : List (String × ℕ) :=
  let base := total / types.length
  let rem := total % types.length
  types.enum.map fun p => (p.2, base + if p.1 < rem then 1 else 0)

/-- models.py Task. -/
structure Task where
  task_id : String
  description : String
  section_id : String
  priority : String
  task_type : String
  estimated_time : ℕ
deriving DecidableEq

/-- Python format specifier 03d: decimal, zero-padded to width 3. -/
def pad3 (n : ℕ) : String :=
  let s := toString n
  if s.length < 3 then String.mk (List.replicate (3 - s.length) '0') ++ s else s

/-- The Relocate description built at line 312 of _generate_tasks; the Python
or-expression substitutes the word unknown for a falsy (absent or empty)
actual section id. -/
def relocateDescription (m : MisplacedItem) : String :=
  let actual :=
    match m.actual_section with
    | none => "unknown"
    | some a => if a = "" then "unknown" else a
  "Move " ++ m.detected_item.class_name ++ " from " ++ actual ++ " to " ++
    m.expected_section

/-- First loop of _generate_tasks: one Relocate task per misplaced item,
threading the running task counter. -/
def relocateTasks : List MisplacedItem → ℕ → List Task × ℕ
  | [], c => ([], c)
  | m :: ms, c =>
    let t : Task :=
      { task_id := "RELOCATE_" ++ pad3 c
        description := relocateDescription m
        section_id := m.expected_section
        priority := "Medium"
        task_type := "Relocate"
        estimated_time := 5 }
    let rest := relocateTasks ms (c + 1)
    (t :: rest.1, rest.2)

/-- Second loop body of _generate_tasks for one breakdown row
(lines 326-376). -/
def rowTasks (sid sname : String) (r : BreakdownRow) (c : ℕ) : List Task × ℕ :=
  if r.availability_status = "Sold Out" ∨ r.availability_status = "Low Stock" then
    ([{ task_id := "RESTOCK_" ++ pad3 c
        description := "Restock " ++ r.item_type ++ " in " ++ sname ++ " (" ++
          r.availability_status ++ ")"
        section_id := sid
        priority := if r.availability_status = "Sold Out" then "High" else "Medium"
        task_type := "Restock"
        estimated_time := 10 }], c + 1)
  else if r.availability_status = "Misplaced Only" ∨
      r.availability_status = "Partially Misplaced" then
    ([{ task_id := "CHECK_" ++ pad3 c
        description := "Check for misplaced " ++ r.item_type ++ " for section " ++ sname
        section_id := sid
        priority := "Medium"
        task_type := "Check"
        estimated_time := 7 }], c + 1)
  else if r.availability_status = "Overstock" then
    ([{ task_id := "REMOVE_" ++ pad3 c
        description := "Remove excess " ++ r.item_type ++ " from " ++ sname
        section_id := sid
        priority := "Low"
        task_type := "Remove"
        estimated_time := 5 }], c + 1)
  else if r.availability_status = "Unexpected Item" then
    ([{ task_id := "REMOVE_" ++ pad3 c
        description := "Remove unexpected item " ++ r.item_type ++ " from " ++ sname
        section_id := sid
        priority := "Medium"
        task_type := "Remove"
        estimated_time := 5 }], c + 1)
  else ([], c)

/-- Second loop of _generate_tasks over the breakdown rows of one section. -/
def rowsTasks (sid sname : String) : List BreakdownRow → ℕ → List Task × ℕ
  | [], c => ([], c)
  | r :: rs, c =>
    let first := rowTasks sid sname r c
    let rest := rowsTasks sid sname rs first.2
    (first.1 ++ rest.1, rest.2)

/-- Second loop of _generate_tasks over all sections. -/
def invTasks : List DetailedInventoryStatus → ℕ → List Task × ℕ
  | [], c => ([], c)
  | d :: ds, c =>
    let first := rowsTasks d.section_id d.section_name d.get_item_breakdown c
    let rest := invTasks ds first.2
    (first.1 ++ rest.1, rest.2)

/-- planogram_analyzer.py _generate_tasks: relocations first, then the
inventory-derived tasks, sharing one counter. -/
def generateTasks (detailed : List DetailedInventoryStatus)
    (misplaced : List MisplacedItem) : List Task :=
  let reloc := relocateTasks misplaced 1
  let inv := invTasks detailed reloc.2
  reloc.1 ++ inv.1

/-- The field names of the DetailedInventoryStatus dataclass in models.py. -/
def detailedStatusFields : List String :=
  ["section_id", "section_name", "expected_items", "detected_items",
   "misplaced_items", "status", "item_statuses"]

/-- The keyword names passed to DetailedInventoryStatus(...) by
_calculate_detailed_inventory_status (lines 286-293). -/
def analyzerDetailedKwargs : List String :=
  ["section_id", "section_name", "expected_items", "expected_visible_items",
   "detected_items", "misplaced_items"]

/-- planogram_analyzer.py _calculate_detailed_inventory_status.  For a section
with expected item types, line 273 reads section.expected_visible_count, an
attribute the PlanogramSection dataclass in models.py does not define, raising
AttributeError; with no expected types execution instead reaches the
DetailedInventoryStatus(...) call at line 286 whose keyword names are not the
dataclass fields (see analyzerDetailedKwargs and detailedStatusFields),
raising TypeError.  Either way the first configured section raises, so the
step is modelled as fallible, succeeding only on an empty section list. -/
def calculate_detailed_inventory_status (sections : List PlanogramSection)
    (items : List DetectedItem) (misplaced : List MisplacedItem) :
    Except String (List DetailedInventoryStatus) :=
  match sections with
  | [] => Except.ok []
  | s :: _ =>
    if 0 < s.expected_items.length then
      Except.error
        "AttributeError: PlanogramSection has no attribute expected_visible_count"
    else
      Except.error "TypeError: unexpected keyword argument expected_visible_items"

/-- models.py AnalysisResults restricted to the four engine tables (the
DataFrame wrappers and the rendered image are presentation only). -/
structure AnalysisResults where
  detected_items : List DetectedItem
  misplaced_items : List MisplacedItem
  detailed_inventory_status : List DetailedInventoryStatus
  tasks : List Task
deriving DecidableEq

/-- models.py AnalysisResults.create_empty. -/
def AnalysisResults.create_empty : AnalysisResults :=
  { detected_items := []
    misplaced_items := []
    detailed_inventory_status := []
    tasks := [] }

/-- planogram_analyzer.py _run_object_detection: when the inference layer is
not ready the function returns the empty list; otherwise it returns the
normalized detections (the conversion of raw detector output to DetectedItem
is abstracted as the already-normalized item list). -/
def run_object_detection (model_ready : Bool) (detections : List DetectedItem) :
    List DetectedItem :=
  if model_ready then detections else []

/-- planogram_analyzer.py analyze_image: the staged pipeline with the
top-level exception handler converting any raised step into the empty
result. -/
def analyze_image (sections : List PlanogramSection) (model_ready : Bool)
    (detections : List DetectedItem) : AnalysisResults :=
  let detected :=
    assign_items_to_sections sections (run_object_detection model_ready detections)
  let misplaced := find_misplaced_items sections detected
  match calculate_detailed_inventory_status sections detected misplaced with
  | Except.error _ => AnalysisResults.create_empty
  | Except.ok detailed =>
    { detected_items := detected
      misplaced_items := misplaced
      detailed_inventory_status := detailed
      tasks := generateTasks detailed misplaced }

/-! ## Concrete fixtures used by witnesses and counterexamples -/

/-- A section expecting the soda class, region x 0-10, y 0-10, center (5,5). -/
def waterSection : PlanogramSection :=
  { section_id := "A", name := "Water", expected_items := ["soda"],
    expected_count := 4, position := ⟨0, 0, 10, 10⟩ }

/-- A second section expecting the soda class, region x 100-110, y 0-10,
center (105,5). -/
def sodaSection : PlanogramSection :=
  { section_id := "B", name := "Soda", expected_items := ["soda"],
    expected_count := 6, position := ⟨100, 0, 110, 10⟩ }

/-- A detected soda item whose bounding box center (50,5) lies in neither
section above; it is nearer the center of waterSection. -/
def strayItem : DetectedItem :=
  { class_id := 0, class_name := "soda", confidence := 9/10,
    bbox := ⟨45, 0, 55, 10⟩ }

/-- A section with region x 10-20, y 10-20, center (15,15), expecting soda. -/
def demoSection : PlanogramSection :=
  { section_id := "A", name := "Demo", expected_items := ["soda"],
    expected_count := 4, position := ⟨10, 10, 20, 20⟩ }

/-- A detected soda item with bounding box center (115,15), Euclidean
distance 100 from the center of demoSection. -/
def farItem : DetectedItem :=
  { class_id := 0, class_name := "soda", confidence := 9/10,
    bbox := ⟨110, 10, 120, 20⟩ }

/-- A detailed status whose only expected type has no detections at all, a
Sold Out row. -/
def soldOutStatus : DetailedInventoryStatus :=
  { section_id := "S2", section_name := "Back Shelf",
    expected_items := [("cereal", 2)], detected_items := [],
    misplaced_items := [], status := "", item_statuses := [] }

/-- A detailed status whose only expected type has three detections against an
expected count of one, a surplus row. -/
def surplusStatus : DetailedInventoryStatus :=
  { section_id := "S1", section_name := "Shelf",
    expected_items := [("cereal", 1)], detected_items := [("cereal", 3)],
    misplaced_items := [], status := "", item_statuses := [] }

/-! ## Theorems -/

lemma pyInt_of_nonneg (q : ℚ) (h : 0 ≤ q) : pyInt q = Int.floor q := by
  unfold pyInt
  rw [if_neg (not_lt.mpr h)]

/-- Core truncation round trip: truncating x*s to an integer and dividing back
by s loses less than one reference pixel, i.e. less than 1/s original pixels,
and the second truncation loses less than one more original pixel. -/
lemma trunc_roundtrip (s x : ℚ) (hs : 0 < s) (hx : 0 ≤ x) :
    ((pyInt (((pyInt (x * s) : ℤ) : ℚ) / s) : ℤ) : ℚ) ≤ x ∧
    x - ((pyInt (((pyInt (x * s) : ℤ) : ℚ) / s) : ℤ) : ℚ) < 1 + 1 / s := by
  have hxs : 0 ≤ x * s := mul_nonneg hx hs.le
  rw [pyInt_of_nonneg _ hxs]
  have hf1le : ((⌊x * s⌋ : ℤ) : ℚ) ≤ x * s := Int.floor_le _
  have hf1gt : x * s - 1 < ((⌊x * s⌋ : ℤ) : ℚ) := Int.sub_one_lt_floor _
  have hf1nonneg : (0 : ℚ) ≤ ((⌊x * s⌋ : ℤ) : ℚ) := by
    have := Int.floor_nonneg.mpr hxs
    exact_mod_cast this
  have hqnn : 0 ≤ ((⌊x * s⌋ : ℤ) : ℚ) / s := div_nonneg hf1nonneg hs.le
  rw [pyInt_of_nonneg _ hqnn]
  have hq_le : ((⌊x * s⌋ : ℤ) : ℚ) / s ≤ x := by
    rw [div_le_iff₀ hs]
    exact hf1le
  have hq_gt : x - 1 / s < ((⌊x * s⌋ : ℤ) : ℚ) / s := by
    rw [lt_div_iff₀ hs]
    have : (x - 1 / s) * s = x * s - 1 := by
      field_simp
    rw [this]
    exact hf1gt
  have hfl_le : ((⌊((⌊x * s⌋ : ℤ) : ℚ) / s⌋ : ℤ) : ℚ) ≤ ((⌊x * s⌋ : ℤ) : ℚ) / s :=
    Int.floor_le _
  have hfl_gt : ((⌊x * s⌋ : ℤ) : ℚ) / s - 1 < ((⌊((⌊x * s⌋ : ℤ) : ℚ) / s⌋ : ℤ) : ℚ) :=
    Int.sub_one_lt_floor _
  constructor
  · linarith
  · linarith

/-- One round-tripped coordinate with the centering offset: the offset cancels
exactly, leaving the pure truncation round trip. -/
lemma rt_coord (s : ℚ) (ox : ℤ) (x : ℚ) (hs : 0 < s) (hx : 0 ≤ x) :
    ((pyInt ((((pyInt (x * s) + ox : ℤ) : ℚ) - (ox : ℚ)) / s) : ℤ) : ℚ) ≤ x ∧
    x - ((pyInt ((((pyInt (x * s) + ox : ℤ) : ℚ) - (ox : ℚ)) / s) : ℤ) : ℚ) < 1 + 1 / s := by
  have hcast : (((pyInt (x * s) + ox : ℤ) : ℚ) - (ox : ℚ)) = ((pyInt (x * s) : ℤ) : ℚ) := by
    push_cast
    ring
  rw [hcast]
  exact trunc_roundtrip s x hs hx

lemma scale_pos (w h : ℕ) (hw : 1 ≤ w) (hh : 1 ≤ h) :
    0 < (image_to_reference_transform w h).scale := by
  have hw' : (0 : ℚ) < (w : ℚ) := by exact_mod_cast hw
  have hh' : (0 : ℚ) < (h : ℚ) := by exact_mod_cast hh
  unfold image_to_reference_transform
  dsimp only
  exact lt_min (by positivity) (by positivity)

/-- Claim C3 (amended): the original-reference-original round trip never
increases a nonnegative coordinate and loses strictly less than 1 + 1/scale
pixels per coordinate; the loss can exceed 1 pixel (see the counterexample),
so the ±1 bound of the claim holds only up to the extra 1/scale truncation
loss. -/
theorem roundtrip_bound (w h : ℕ) (hw : 1 ≤ w) (hh : 1 ≤ h) (b : BoundingBox)
    (hx1 : 0 ≤ b.x1) (hy1 : 0 ≤ b.y1) (hx2 : 0 ≤ b.x2) (hy2 : 0 ≤ b.y2) :
    (reference_to_original (original_to_reference b w h) w h).x1 ≤ b.x1 ∧
    b.x1 - (reference_to_original (original_to_reference b w h) w h).x1 <
      1 + 1 / (image_to_reference_transform w h).scale ∧
    (reference_to_original (original_to_reference b w h) w h).y1 ≤ b.y1 ∧
    b.y1 - (reference_to_original (original_to_reference b w h) w h).y1 <
      1 + 1 / (image_to_reference_transform w h).scale ∧
    (reference_to_original (original_to_reference b w h) w h).x2 ≤ b.x2 ∧
    b.x2 - (reference_to_original (original_to_reference b w h) w h).x2 <
      1 + 1 / (image_to_reference_transform w h).scale ∧
    (reference_to_original (original_to_reference b w h) w h).y2 ≤ b.y2 ∧
    b.y2 - (reference_to_original (original_to_reference b w h) w h).y2 <
      1 + 1 / (image_to_reference_transform w h).scale := by
  have hs := scale_pos w h hw hh
  simp only [reference_to_original, original_to_reference]
  have h1 := rt_coord (image_to_reference_transform w h).scale
    (image_to_reference_transform w h).offset_x b.x1 hs hx1
  have h2 := rt_coord (image_to_reference_transform w h).scale
    (image_to_reference_transform w h).offset_y b.y1 hs hy1
  have h3 := rt_coord (image_to_reference_transform w h).scale
    (image_to_reference_transform w h).offset_x b.x2 hs hx2
  have h4 := rt_coord (image_to_reference_transform w h).scale
    (image_to_reference_transform w h).offset_y b.y2 hs hy2
  exact ⟨h1.1, h1.2, h2.1, h2.2, h3.1, h3.2, h4.1, h4.2⟩

/-- Witness for roundtrip_bound at a concrete image size and box. -/
theorem roundtrip_bound_witness :
    (reference_to_original (original_to_reference ⟨10, 20, 30, 40⟩ 1080 1440) 1080 1440).x1 ≤ 10 ∧
    (10 : ℚ) - (reference_to_original (original_to_reference ⟨10, 20, 30, 40⟩ 1080 1440) 1080 1440).x1 <
      1 + 1 / (image_to_reference_transform 1080 1440).scale := by
  have h := roundtrip_bound 1080 1440 (by norm_num) (by norm_num) ⟨10, 20, 30, 40⟩
    (by norm_num) (by norm_num) (by norm_num) (by norm_num)
  exact ⟨h.1, h.2.1⟩

/-- Claim C3 counterexample: for a 720 x 960 image (scale 3/2) the box corner
x1 = 5.1 round-trips to 4, a loss of 1.1 > 1 pixel, refuting the ±1 bound as
stated. -/
theorem roundtrip_counterexample :
    (reference_to_original (original_to_reference ⟨51/10, 51/10, 100, 100⟩ 720 960) 720 960).x1 = 4 ∧
    (1 : ℚ) < (51 / 10 : ℚ) -
      (reference_to_original (original_to_reference ⟨51/10, 51/10, 100, 100⟩ 720 960) 720 960).x1 := by
  have ht : image_to_reference_transform 720 960 =
      { scale := 3/2, offset_x := 0, offset_y := 0,
        scaled_width := 1080, scaled_height := 1440 } := by
    unfold image_to_reference_transform
    norm_num [pyInt]
  have hx1f : (original_to_reference ⟨51/10, 51/10, 100, 100⟩ 720 960).x1 = 7 := by
    unfold original_to_reference
    rw [ht]
    norm_num [pyInt]
  have key : (reference_to_original
      (original_to_reference ⟨51/10, 51/10, 100, 100⟩ 720 960) 720 960).x1 = 4 := by
    unfold reference_to_original
    dsimp only
    rw [ht, hx1f]
    norm_num [pyInt]
  refine ⟨key, ?_⟩
  rw [key]
  norm_num


lemma mkSectionFromConfig_error (d : SectionData) :
    mkSectionFromConfig d =
      Except.error "TypeError: unexpected keyword argument expected_visible_count" := by
  unfold mkSectionFromConfig
  rw [if_neg]
  intro hsub
  have : "expected_visible_count" ∈ planogramSectionFields :=
    hsub (by simp [parseSectionKwargs])
  simp [planogramSectionFields] at this

/-- Claim C2 (code bug): config.py does compute the documented default
(expected_visible_count falling back to expected_count when absent), but the
PlanogramSection dataclass in models.py has no expected_visible_count field,
so every constructor call in _parse_config raises TypeError and loading a
document with any section fails instead of succeeding. -/
theorem config_load_fails :
    (∀ d : SectionData, mkSectionFromConfig d =
      Except.error "TypeError: unexpected keyword argument expected_visible_count") ∧
    (∀ d : SectionData, d.expected_visible_count = none →
      parsedVisibleCount d = d.expected_count) ∧
    (∀ ds : List SectionData, ds ≠ [] →
      parseConfigSections ds =
        Except.error "TypeError: unexpected keyword argument expected_visible_count") := by
  refine ⟨mkSectionFromConfig_error, ?_, ?_⟩
  · intro d h
    unfold parsedVisibleCount
    rw [h]
    rfl
  · intro ds hds
    cases ds with
    | nil => exact absurd rfl hds
    | cons d ds' =>
      unfold parseConfigSections
      rw [List.mapM_cons, mkSectionFromConfig_error]
      rfl

/-- Witness for config_load_fails at a concrete section record lacking
expected_visible_count. -/
theorem config_load_fails_witness :
    mkSectionFromConfig
      { section_id := "A", name := "A", expected_items := ["cereal"],
        expected_count := 10, expected_visible_count := none,
        position := ⟨0, 0, 100, 100⟩, priority := none } =
      Except.error "TypeError: unexpected keyword argument expected_visible_count" ∧
    parsedVisibleCount
      { section_id := "A", name := "A", expected_items := ["cereal"],
        expected_count := 10, expected_visible_count := none,
        position := ⟨0, 0, 100, 100⟩, priority := none } = 10 :=
  ⟨config_load_fails.1 _, config_load_fails.2.1 _ rfl⟩


lemma availabilityStatus_cases (e d m : ℕ) :
    availabilityStatus e d m = "Sold Out" ∨
    availabilityStatus e d m = "Misplaced Only" ∨
    availabilityStatus e d m = "Partially Misplaced" ∨
    availabilityStatus e d m = "Available" ∨
    availabilityStatus e d m = "Not Expected" := by
  unfold availabilityStatus
  dsimp only
  split_ifs <;> tauto


/-- Claim C1 (code bug): the classification in src has no Low Stock row.  At
expected = 10, expected_visible = 10, detected = 2, misplaced = 0 the code
classifies the pair Available while the claimed table gives Low Stock.  The
totality half of the claim does hold: the src classifier always returns
exactly one of its five statuses. -/
theorem availability_low_stock_missing :
    availabilityStatus 10 2 0 = "Available" ∧
    specAvailabilityStatus 10 10 2 0 = "Low Stock" ∧
    availabilityStatus 10 2 0 ≠ specAvailabilityStatus 10 10 2 0 ∧
    (∀ e d m : ℕ,
      availabilityStatus e d m = "Sold Out" ∨
      availabilityStatus e d m = "Misplaced Only" ∨
      availabilityStatus e d m = "Partially Misplaced" ∨
      availabilityStatus e d m = "Available" ∨
      availabilityStatus e d m = "Not Expected") := by
  have h1 : availabilityStatus 10 2 0 = "Available" := by decide
  have h2 : specAvailabilityStatus 10 10 2 0 = "Low Stock" := by
    norm_num [specAvailabilityStatus]
  refine ⟨h1, h2, ?_, availabilityStatus_cases⟩
  rw [h1, h2]
  decide


/-! ### Distribution of expected counts (claim C7) -/

lemma sum_distribute (l : List String) (k base r : ℕ) :
    (((l.enumFrom k).map
        (fun p => (p.2, base + if p.1 < r then 1 else 0))).map Prod.snd).sum
      = l.length * base + (min r (k + l.length) - min r k) := by
  induction l generalizing k with
  | nil => simp
  | cons a l ih =>
    rw [List.enumFrom_cons]
    simp only [List.map_cons, List.sum_cons, List.length_cons]
    rw [ih (k + 1)]
    rw [Nat.add_mul, Nat.one_mul]
    by_cases hk : k < r
    · simp only [hk, if_true]
      omega
    · simp only [hk, if_false]
      omega

/-- Claim C7: the per-type expected counts assigned by the classifier are the
integer base share plus one for exactly the first remainder types in
declaration order, and they sum to the section total exactly. -/
theorem distribution_invariant (total : ℕ) (types : List String) (h : types ≠ []) :
    ((distributeExpected total types).map Prod.snd).sum = total ∧
    (∀ i ty, types[i]? = some ty →
      (distributeExpected total types)[i]? =
        some (ty, total / types.length + if i < total % types.length then 1 else 0)) := by
  have hlen : 0 < types.length := List.length_pos.mpr h
  constructor
  · unfold distributeExpected
    dsimp only
    rw [show types.enum = types.enumFrom 0 from rfl]
    rw [sum_distribute types 0 (total / types.length) (total % types.length)]
    have hmod : total % types.length < types.length := Nat.mod_lt _ hlen
    have hdm := Nat.div_add_mod total types.length
    omega
  · intro i ty hty
    unfold distributeExpected
    dsimp only
    rw [List.getElem?_map, List.getElem?_enum, hty]
    rfl

/-- Witness for distribution_invariant: 10 split over three types as
4 + 3 + 3. -/
theorem distribution_invariant_witness :
    ((distributeExpected 10 ["a", "b", "c"]).map Prod.snd).sum = 10 :=
  (distribution_invariant 10 ["a", "b", "c"] (by decide)).1

/-! ### Breakdown rows for unexpected item types (claim C9) -/

lemma lookup_eq_none_of_not_mem {β : Type} (d : List (String × β)) (t : String)
    (h : t ∉ d.map Prod.fst) : d.lookup t = none := by
  induction d with
  | nil => rfl
  | cons p rest ih =>
    obtain ⟨k, v⟩ := p
    simp only [List.map_cons, List.mem_cons, not_or] at h
    have hne : (t == k) = false := beq_eq_false_iff_ne.mpr h.1
    simp [List.lookup, hne, ih h.2]

lemma availabilityStatus_zero (d m : ℕ) :
    availabilityStatus 0 d m = "Not Expected" := by
  unfold availabilityStatus
  simp

/-- Claim C9: an item type that was detected in the section or resolved as
misplaced to it, but is not among the expected item types, still gets a
breakdown row, and every such row has availability status Not Expected,
shortage 0, and surplus equal to detected-in-section plus found-elsewhere. -/
theorem unexpected_type_rows (s : DetailedInventoryStatus) (t : String)
    (hnot : t ∉ s.expected_items.map Prod.fst)
    (hin : t ∈ s.detected_items.map Prod.fst ∨ t ∈ s.misplaced_items.map Prod.fst) :
    (∃ r ∈ s.get_item_breakdown, r.item_type = t) ∧
    (∀ r ∈ s.get_item_breakdown, r.item_type = t →
      r.availability_status = "Not Expected" ∧ r.shortage = 0 ∧
      r.surplus = dictGet s.detected_items t + dictGet s.misplaced_items t) := by
  have hmem : t ∈ allItemTypes s := by
    unfold allItemTypes
    rw [List.mem_dedup]
    rcases hin with h | h
    · exact List.mem_append.mpr (Or.inl (List.mem_append.mpr (Or.inr h)))
    · exact List.mem_append.mpr (Or.inr h)
  have hexp : dictGet s.expected_items t = 0 := by
    unfold dictGet
    rw [lookup_eq_none_of_not_mem _ _ hnot]
    rfl
  constructor
  · unfold DetailedInventoryStatus.get_item_breakdown
    exact ⟨_, List.mem_map_of_mem _ hmem, rfl⟩
  · intro r hr hrt
    unfold DetailedInventoryStatus.get_item_breakdown at hr
    rw [List.mem_map] at hr
    obtain ⟨t', _, rfl⟩ := hr
    dsimp only at hrt ⊢
    subst hrt
    rw [hexp]
    exact ⟨availabilityStatus_zero _ _, Nat.zero_sub _, Nat.sub_zero _⟩

/-- Witness for unexpected_type_rows at a concrete status with an item type
present only among detected and misplaced tallies. -/
theorem unexpected_type_rows_witness :
    (∃ r ∈ DetailedInventoryStatus.get_item_breakdown
        { section_id := "S", section_name := "S",
          expected_items := [("a", 5)], detected_items := [("b", 2)],
          misplaced_items := [("b", 1)], status := "", item_statuses := [] },
      r.item_type = "b") ∧
    (∀ r ∈ DetailedInventoryStatus.get_item_breakdown
        { section_id := "S", section_name := "S",
          expected_items := [("a", 5)], detected_items := [("b", 2)],
          misplaced_items := [("b", 1)], status := "", item_statuses := [] },
      r.item_type = "b" →
      r.availability_status = "Not Expected" ∧ r.shortage = 0 ∧
      r.surplus = dictGet [("b", 2)] "b" + dictGet [("b", 1)] "b") :=
  unexpected_type_rows _ "b" (by decide) (Or.inl (by decide))

/-- Claim C10: for boxes with x1 < x2 and y1 < y2, iou is total with value in
[0,1]; the division is guarded so 0.0 is returned whenever the union is not
positive; and disjoint boxes always yield 0.0. -/
theorem iou_bounds (a b : BoundingBox) :
    (a.unionArea b ≤ 0 → a.iou b = 0) ∧
    (a.x1 < a.x2 → a.y1 < a.y2 → b.x1 < b.x2 → b.y1 < b.y2 →
      0 ≤ a.iou b ∧ a.iou b ≤ 1 ∧
      ((min a.x2 b.x2 ≤ max a.x1 b.x1 ∨ min a.y2 b.y2 ≤ max a.y1 b.y1) →
        a.iou b = 0)) := by
  constructor
  · intro h
    unfold BoundingBox.iou
    rw [if_neg (by linarith)]
  · intro hax hay hbx hby
    have hInter0 : 0 ≤ a.interArea b := by
      unfold BoundingBox.interArea
      dsimp only
      split
      · rename_i hcond
        have h1 := hcond.1
        have h2 := hcond.2
        nlinarith
      · exact le_refl 0
    have hIa : a.interArea b ≤ a.area := by
      unfold BoundingBox.interArea BoundingBox.area
      dsimp only
      split
      · rename_i hcond
        have h1 : max a.x1 b.x1 < min a.x2 b.x2 := hcond.1
        have h2 : max a.y1 b.y1 < min a.y2 b.y2 := hcond.2
        have hx1 : a.x1 ≤ max a.x1 b.x1 := le_max_left _ _
        have hx2 : min a.x2 b.x2 ≤ a.x2 := min_le_left _ _
        have hy1 : a.y1 ≤ max a.y1 b.y1 := le_max_left _ _
        have hy2 : min a.y2 b.y2 ≤ a.y2 := min_le_left _ _
        nlinarith
      · nlinarith
    have hIb : a.interArea b ≤ b.area := by
      unfold BoundingBox.interArea BoundingBox.area
      dsimp only
      split
      · rename_i hcond
        have h1 : max a.x1 b.x1 < min a.x2 b.x2 := hcond.1
        have h2 : max a.y1 b.y1 < min a.y2 b.y2 := hcond.2
        have hx1 : b.x1 ≤ max a.x1 b.x1 := le_max_right _ _
        have hx2 : min a.x2 b.x2 ≤ b.x2 := min_le_right _ _
        have hy1 : b.y1 ≤ max a.y1 b.y1 := le_max_right _ _
        have hy2 : min a.y2 b.y2 ≤ b.y2 := min_le_right _ _
        nlinarith
      · nlinarith
    have haPos : 0 < a.area := by
      unfold BoundingBox.area
      nlinarith
    have hbPos : 0 < b.area := by
      unfold BoundingBox.area
      nlinarith
    have hUnion : 0 < a.unionArea b := by
      unfold BoundingBox.unionArea
      nlinarith
    have hIU : a.interArea b ≤ a.unionArea b := by
      unfold BoundingBox.unionArea
      nlinarith
    refine ⟨?_, ?_, ?_⟩
    · unfold BoundingBox.iou
      rw [if_pos hUnion]
      exact div_nonneg hInter0 (le_of_lt hUnion)
    · unfold BoundingBox.iou
      rw [if_pos hUnion]
      exact (div_le_one hUnion).mpr hIU
    · intro hdisj
      have hI : a.interArea b = 0 := by
        unfold BoundingBox.interArea
        dsimp only
        split
        · rename_i hcond
          rcases hdisj with h | h
          · exact absurd hcond.1 (not_lt.mpr h)
          · exact absurd hcond.2 (not_lt.mpr h)
        · rfl
      unfold BoundingBox.iou
      rw [if_pos hUnion, hI, zero_div]

/-- Witness for iou_bounds at concrete boxes. -/
theorem iou_bounds_witness :
    0 ≤ BoundingBox.iou ⟨0, 0, 2, 2⟩ ⟨1, 1, 3, 3⟩ ∧
    BoundingBox.iou ⟨0, 0, 2, 2⟩ ⟨1, 1, 3, 3⟩ ≤ 1 ∧
    BoundingBox.iou ⟨0, 0, 1, 1⟩ ⟨2, 0, 3, 1⟩ = 0 := by
  have h1 := (iou_bounds ⟨0, 0, 2, 2⟩ ⟨1, 1, 3, 3⟩).2
    (by norm_num) (by norm_num) (by norm_num) (by norm_num)
  have h2 := (iou_bounds ⟨0, 0, 1, 1⟩ ⟨2, 0, 3, 1⟩).2
    (by norm_num) (by norm_num) (by norm_num) (by norm_num)
  refine ⟨h1.1, h1.2.1, h2.2.2 ?_⟩
  left
  norm_num

/-! ### Misplacement detection (claims C4 and C8) -/

lemma closestLoop_spec (x y : ℚ) (l : List PlanogramSection) :
    ∀ b db, db = distSq x y b →
      ∃ b' db', closestLoop x y l (some (b, db)) = some (b', db') ∧
        db' = distSq x y b' ∧ (b' ∈ l ∨ b' = b) ∧ db' ≤ db ∧
        ∀ s ∈ l, db' ≤ distSq x y s := by
  induction l with
  | nil =>
    intro b db hdb
    exact ⟨b, db, rfl, hdb, Or.inr rfl, le_refl _, by simp⟩
  | cons s rest ih =>
    intro b db hdb
    have step0 : closestLoop x y (s :: rest) (some (b, db)) =
        closestLoop x y rest
          (if distSq x y s < db then some (s, distSq x y s) else some (b, db)) := rfl
    by_cases hlt : distSq x y s < db
    · rw [if_pos hlt] at step0
      obtain ⟨b', db', heq, h1, h2, h3, h4⟩ := ih s (distSq x y s) rfl
      refine ⟨b', db', step0 ▸ heq, h1, ?_, by linarith, ?_⟩
      · rcases h2 with h | h
        · exact Or.inl (List.mem_cons_of_mem _ h)
        · exact Or.inl (h ▸ List.mem_cons_self _ _)
      · intro s' hs'
        rcases List.mem_cons.mp hs' with h | h
        · subst h
          linarith
        · exact h4 s' h
    · rw [if_neg hlt] at step0
      obtain ⟨b', db', heq, h1, h2, h3, h4⟩ := ih b db hdb
      refine ⟨b', db', step0 ▸ heq, h1, ?_, h3, ?_⟩
      · rcases h2 with h | h
        · exact Or.inl (List.mem_cons_of_mem _ h)
        · exact Or.inr h
      · intro s' hs'
        rcases List.mem_cons.mp hs' with h | h
        · subst h
          push_neg at hlt
          linarith
        · exact h4 s' h

lemma find_closest_spec (x y : ℚ) (l : List PlanogramSection) (hl : l ≠ []) :
    ∃ s, find_closest_expected_section x y l = some s ∧ s ∈ l ∧
      ∀ s' ∈ l, distSq x y s ≤ distSq x y s' := by
  cases l with
  | nil => exact absurd rfl hl
  | cons a rest =>
    have step : closestLoop x y (a :: rest) none =
        closestLoop x y rest (some (a, distSq x y a)) := rfl
    obtain ⟨b', db', heq, h1, h2, h3, h4⟩ :=
      closestLoop_spec x y rest a (distSq x y a) rfl
    refine ⟨b', ?_, ?_, ?_⟩
    · unfold find_closest_expected_section
      rw [step, heq]
      rfl
    · rcases h2 with h | h
      · exact List.mem_cons_of_mem _ h
      · exact h ▸ List.mem_cons_self _ _
    · intro s' hs'
      rcases List.mem_cons.mp hs' with h | h
      · subst h
        rw [← h1]
        exact h3
      · rw [← h1]
        exact h4 s' h

lemma misplacedForItem_detected (sections : List PlanogramSection)
    (item : DetectedItem) (m : MisplacedItem)
    (h : misplacedForItem sections item = some m) : m.detected_item = item := by
  unfold misplacedForItem at h
  dsimp only at h
  split_ifs at h
  all_goals injection h with h'
  all_goals rw [← h']

lemma misplacedForItem_inside_none (sections : List PlanogramSection)
    (item : DetectedItem)
    (hin : ∃ s ∈ get_sections_for_item sections item.class_name,
      point_in_section item.center.1 item.center.2 s = true) :
    misplacedForItem sections item = none := by
  obtain ⟨s, hs, hp⟩ := hin
  have hany : (get_sections_for_item sections item.class_name).any
      (fun s => point_in_section item.center.1 item.center.2 s) = true :=
    List.any_eq_true.mpr ⟨s, hs, hp⟩
  unfold misplacedForItem
  dsimp only
  rw [if_neg, if_pos hany]
  intro hempty
  rw [List.isEmpty_iff] at hempty
  rw [hempty] at hs
  exact List.not_mem_nil s hs

/-- The shape of the record emitted by _find_misplaced_items for a misplaced
item: the resolved closest section id, the assigned section, and distance
0.0. -/
lemma misplacedForItem_eq_some (sections : List PlanogramSection)
    (item : DetectedItem) (sBest : PlanogramSection)
    (hempty : (get_sections_for_item sections item.class_name).isEmpty = false)
    (hany : (get_sections_for_item sections item.class_name).any
      (fun s => point_in_section item.center.1 item.center.2 s) = false)
    (hfc : find_closest_expected_section item.center.1 item.center.2
      (get_sections_for_item sections item.class_name) = some sBest) :
    misplacedForItem sections item =
      some { detected_item := item
             expected_section := sBest.section_id
             actual_section := item.section_id
             distance_from_expected := 0 } := by
  unfold misplacedForItem
  dsimp only
  rw [hempty, hany, hfc]
  simp

lemma count_filterMap_misplaced (sections : List PlanogramSection)
    (item : DetectedItem) (m0 : MisplacedItem)
    (hsome : misplacedForItem sections item = some m0) :
    ∀ items : List DetectedItem,
      (find_misplaced_items sections items).countP
          (fun m' => decide (m'.detected_item = item)) =
        items.countP (fun x => decide (x = item)) := by
  intro items
  induction items with
  | nil => rfl
  | cons x xs ih =>
    unfold find_misplaced_items at ih ⊢
    rw [List.filterMap_cons]
    by_cases hxi : x = item
    · subst hxi
      rw [hsome, List.countP_cons, List.countP_cons, ih]
      have hdet : m0.detected_item = x := misplacedForItem_detected _ _ _ hsome
      simp [hdet]
    · cases hfx : misplacedForItem sections x with
      | none =>
        rw [List.countP_cons, ih]
        simp [hxi]
      | some m =>
        have hdet : m.detected_item = x := misplacedForItem_detected _ _ _ hfx
        rw [List.countP_cons, List.countP_cons, ih]
        simp [hdet, hxi]

/-- Claim C4: an item of a planogram-governed class whose representative point
lies inside some expected section is never emitted as misplaced; if it lies
inside none, exactly one MisplacedItem is emitted per occurrence of the item,
and its expected_section is a candidate section whose region center attains
the minimum Euclidean distance to the point. -/
theorem misplacement_sound_and_nearest (sections : List PlanogramSection)
    (items : List DetectedItem) (item : DetectedItem)
    (hc : get_sections_for_item sections item.class_name ≠ []) :
    ((∃ s ∈ get_sections_for_item sections item.class_name,
        point_in_section item.center.1 item.center.2 s = true) →
      ∀ m ∈ find_misplaced_items sections items, m.detected_item ≠ item) ∧
    ((∀ s ∈ get_sections_for_item sections item.class_name,
        ¬ point_in_section item.center.1 item.center.2 s = true) →
      ∃ m, misplacedForItem sections item = some m ∧
        (item ∈ items →
          (find_misplaced_items sections items).countP
              (fun m' => decide (m'.detected_item = item)) =
            items.countP (fun x => decide (x = item))) ∧
        (∃ s ∈ get_sections_for_item sections item.class_name,
          m.expected_section = s.section_id ∧
          (∀ s' ∈ get_sections_for_item sections item.class_name,
            Real.sqrt ((distSq item.center.1 item.center.2 s : ℚ) : ℝ) ≤
              Real.sqrt ((distSq item.center.1 item.center.2 s' : ℚ) : ℝ)))) := by
  constructor
  · intro hin m hm heq
    have hnone := misplacedForItem_inside_none sections item hin
    unfold find_misplaced_items at hm
    obtain ⟨x, hx, hfx⟩ := List.mem_filterMap.mp hm
    have hdet := misplacedForItem_detected _ _ _ hfx
    rw [hdet] at heq
    subst heq
    rw [hnone] at hfx
    exact Option.noConfusion hfx
  · intro hout
    obtain ⟨sBest, hfc, hmem, hmin⟩ :=
      find_closest_spec item.center.1 item.center.2
        (get_sections_for_item sections item.class_name) hc
    have hany : (get_sections_for_item sections item.class_name).any
        (fun s => point_in_section item.center.1 item.center.2 s) = false := by
      rw [List.any_eq_false]
      intro s hs
      exact hout s hs
    have hempty : (get_sections_for_item sections item.class_name).isEmpty = false := by
      cases hl : get_sections_for_item sections item.class_name with
      | nil => exact absurd hl hc
      | cons a l => rfl
    have hsome := misplacedForItem_eq_some sections item sBest hempty hany hfc
    refine ⟨_, hsome, ?_, sBest, hmem, rfl, ?_⟩
    · intro _
      exact count_filterMap_misplaced sections item _ hsome items
    · intro s' hs'
      exact Real.sqrt_le_sqrt (by exact_mod_cast hmin s' hs')

/-- Witness for misplacement_sound_and_nearest: a stray soda item between two
soda sections is emitted once, with the nearer section as expected_section. -/
theorem misplacement_witness :
    ∃ m, misplacedForItem [waterSection, sodaSection] strayItem = some m ∧
      (strayItem ∈ [strayItem] →
        (find_misplaced_items [waterSection, sodaSection] [strayItem]).countP
            (fun m' => decide (m'.detected_item = strayItem)) =
          [strayItem].countP (fun x => decide (x = strayItem))) ∧
      (∃ s ∈ get_sections_for_item [waterSection, sodaSection] strayItem.class_name,
        m.expected_section = s.section_id ∧
        (∀ s' ∈ get_sections_for_item [waterSection, sodaSection] strayItem.class_name,
          Real.sqrt ((distSq strayItem.center.1 strayItem.center.2 s : ℚ) : ℝ) ≤
            Real.sqrt ((distSq strayItem.center.1 strayItem.center.2 s' : ℚ) : ℝ))) := by
  have hc : get_sections_for_item [waterSection, sodaSection] strayItem.class_name
      = [waterSection, sodaSection] := rfl
  have hcen : strayItem.center = (50, 5) := by
    norm_num [strayItem, DetectedItem.center, BoundingBox.center, Prod.ext_iff]
  have hout : ∀ s ∈ get_sections_for_item [waterSection, sodaSection] strayItem.class_name,
      ¬ point_in_section strayItem.center.1 strayItem.center.2 s = true := by
    rw [hc, hcen]
    intro s hs
    rcases List.mem_cons.mp hs with h | hs2
    · subst h
      norm_num [point_in_section, waterSection]
    · rcases List.mem_cons.mp hs2 with h | hs3
      · subst h
        norm_num [point_in_section, sodaSection]
      · exact absurd hs3 (List.not_mem_nil s)
  exact (misplacement_sound_and_nearest [waterSection, sodaSection] [strayItem] strayItem
    (by rw [hc]; exact List.cons_ne_nil _ _)).2 hout

/-- Claim C8 (amended): the distance_from_expected field of every emitted
MisplacedItem is 0.0, regardless of the tie-break distance (source line 181
hard-codes it for compatibility). -/
theorem distance_field_zero (sections : List PlanogramSection)
    (item : DetectedItem) (m : MisplacedItem)
    (h : misplacedForItem sections item = some m) :
    m.distance_from_expected = 0 := by
  unfold misplacedForItem at h
  dsimp only at h
  split_ifs at h
  all_goals injection h with h'
  all_goals rw [← h']

/-- Witness for distance_field_zero at a concrete misplaced item. -/
theorem distance_field_zero_witness :
    ∃ m, misplacedForItem [demoSection] farItem = some m ∧
      m.distance_from_expected = 0 := by
  have hcen : farItem.center = (115, 15) := by
    norm_num [farItem, DetectedItem.center, BoundingBox.center, Prod.ext_iff]
  have hpoint : point_in_section farItem.center.1 farItem.center.2 demoSection = false := by
    rw [hcen]
    norm_num [point_in_section, demoSection]
  have hany : (get_sections_for_item [demoSection] farItem.class_name).any
      (fun s => point_in_section farItem.center.1 farItem.center.2 s) = false := by
    rw [show get_sections_for_item [demoSection] farItem.class_name = [demoSection] from rfl]
    simp [hpoint]
  have h := misplacedForItem_eq_some [demoSection] farItem demoSection rfl hany rfl
  exact ⟨_, h, distance_field_zero [demoSection] farItem _ h⟩

/-- Claim C8 counterexample: the emitted MisplacedItem for farItem stores
distance 0.0 although the Euclidean distance from its representative point to
the resolved expected section center is 100, refuting the claim that the
field carries the tie-break distance. -/
theorem distance_field_counterexample :
    misplacedForItem [demoSection] farItem =
      some { detected_item := farItem, expected_section := "A",
             actual_section := none, distance_from_expected := 0 } ∧
    distSq farItem.center.1 farItem.center.2 demoSection = 10000 ∧
    Real.sqrt ((distSq farItem.center.1 farItem.center.2 demoSection : ℚ) : ℝ) = 100 := by
  have hcen : farItem.center = (115, 15) := by
    norm_num [farItem, DetectedItem.center, BoundingBox.center, Prod.ext_iff]
  have hpoint : point_in_section farItem.center.1 farItem.center.2 demoSection = false := by
    rw [hcen]
    norm_num [point_in_section, demoSection]
  have hany : (get_sections_for_item [demoSection] farItem.class_name).any
      (fun s => point_in_section farItem.center.1 farItem.center.2 s) = false := by
    rw [show get_sections_for_item [demoSection] farItem.class_name = [demoSection] from rfl]
    simp [hpoint]
  have hdist : distSq farItem.center.1 farItem.center.2 demoSection = 10000 := by
    rw [hcen]
    norm_num [distSq, demoSection]
  refine ⟨misplacedForItem_eq_some [demoSection] farItem demoSection rfl hany rfl,
    hdist, ?_⟩
  rw [hdist]
  have h2 : (((10000 : ℚ)) : ℝ) = (100 : ℝ) ^ 2 := by norm_num
  rw [h2, Real.sqrt_sq (by norm_num : (0 : ℝ) ≤ 100)]

/-! ### Task generation (claim C5) -/

lemma breakdown_status_cases (s : DetailedInventoryStatus) :
    ∀ r ∈ s.get_item_breakdown,
      r.availability_status = "Sold Out" ∨ r.availability_status = "Misplaced Only" ∨
      r.availability_status = "Partially Misplaced" ∨ r.availability_status = "Available" ∨
      r.availability_status = "Not Expected" := by
  intro r hr
  unfold DetailedInventoryStatus.get_item_breakdown at hr
  rw [List.mem_map] at hr
  obtain ⟨t, _, rfl⟩ := hr
  exact availabilityStatus_cases _ _ _

lemma rowTasks_shape (sid sname : String) (r : BreakdownRow) (c : ℕ)
    (h5 : r.availability_status = "Sold Out" ∨ r.availability_status = "Misplaced Only" ∨
      r.availability_status = "Partially Misplaced" ∨ r.availability_status = "Available" ∨
      r.availability_status = "Not Expected") :
    ∀ t ∈ (rowTasks sid sname r c).1,
      (t.task_type = "Restock" ∧ t.priority = "High" ∧ t.estimated_time = 10) ∨
      (t.task_type = "Check" ∧ t.priority = "Medium" ∧ t.estimated_time = 7) := by
  intro t ht
  unfold rowTasks at ht
  rcases h5 with h | h | h | h | h
  · rw [h, if_pos (Or.inl rfl)] at ht
    simp only [List.mem_singleton] at ht
    subst ht
    left
    refine ⟨rfl, ?_, rfl⟩
    simp
  · rw [h, if_neg (by decide), if_pos (Or.inl rfl)] at ht
    simp only [List.mem_singleton] at ht
    subst ht
    right
    exact ⟨rfl, rfl, rfl⟩
  · rw [h, if_neg (by decide), if_pos (Or.inr rfl)] at ht
    simp only [List.mem_singleton] at ht
    subst ht
    right
    exact ⟨rfl, rfl, rfl⟩
  · rw [h, if_neg (by decide), if_neg (by decide), if_neg (by decide),
      if_neg (by decide)] at ht
    simp at ht
  · rw [h, if_neg (by decide), if_neg (by decide), if_neg (by decide),
      if_neg (by decide)] at ht
    simp at ht

lemma rowsTasks_shape (sid sname : String) (rs : List BreakdownRow)
    (h5 : ∀ r ∈ rs,
      r.availability_status = "Sold Out" ∨ r.availability_status = "Misplaced Only" ∨
      r.availability_status = "Partially Misplaced" ∨ r.availability_status = "Available" ∨
      r.availability_status = "Not Expected") :
    ∀ c, ∀ t ∈ (rowsTasks sid sname rs c).1,
      (t.task_type = "Restock" ∧ t.priority = "High" ∧ t.estimated_time = 10) ∨
      (t.task_type = "Check" ∧ t.priority = "Medium" ∧ t.estimated_time = 7) := by
  induction rs with
  | nil =>
    intro c t ht
    simp [rowsTasks] at ht
  | cons r rs ih =>
    intro c t ht
    unfold rowsTasks at ht
    dsimp only at ht
    rcases List.mem_append.mp ht with h | h
    · exact rowTasks_shape sid sname r c (h5 r (List.mem_cons_self _ _)) t h
    · exact ih (fun r' hr' => h5 r' (List.mem_cons_of_mem _ hr')) _ t h

lemma invTasks_shape (ds : List DetailedInventoryStatus) :
    ∀ c, ∀ t ∈ (invTasks ds c).1,
      (t.task_type = "Restock" ∧ t.priority = "High" ∧ t.estimated_time = 10) ∨
      (t.task_type = "Check" ∧ t.priority = "Medium" ∧ t.estimated_time = 7) := by
  induction ds with
  | nil =>
    intro c t ht
    simp [invTasks] at ht
  | cons d ds ih =>
    intro c t ht
    unfold invTasks at ht
    dsimp only at ht
    rcases List.mem_append.mp ht with h | h
    · exact rowsTasks_shape d.section_id d.section_name _ (breakdown_status_cases d) c t h
    · exact ih _ t h

lemma relocateTasks_eq (ms : List MisplacedItem) : ∀ c,
    (relocateTasks ms c).1 = (ms.enumFrom c).map (fun p =>
      { task_id := "RELOCATE_" ++ pad3 p.1
        description := relocateDescription p.2
        section_id := p.2.expected_section
        priority := "Medium"
        task_type := "Relocate"
        estimated_time := 5 : Task }) := by
  induction ms with
  | nil =>
    intro c
    rfl
  | cons m ms ih =>
    intro c
    rw [List.enumFrom_cons]
    simp only [List.map_cons]
    unfold relocateTasks
    dsimp only
    rw [ih (c + 1)]

lemma rowTasks_sold_out (sid sname : String) (r : BreakdownRow) (c : ℕ)
    (h : r.availability_status = "Sold Out") :
    ∃ t ∈ (rowTasks sid sname r c).1, t.task_type = "Restock" ∧
      t.priority = "High" ∧ t.estimated_time = 10 ∧ t.section_id = sid := by
  unfold rowTasks
  rw [h, if_pos (Or.inl rfl)]
  refine ⟨_, List.mem_cons_self _ _, rfl, ?_, rfl, rfl⟩
  simp

lemma rowTasks_check (sid sname : String) (r : BreakdownRow) (c : ℕ)
    (h : r.availability_status = "Misplaced Only" ∨
      r.availability_status = "Partially Misplaced") :
    ∃ t ∈ (rowTasks sid sname r c).1, t.task_type = "Check" ∧
      t.priority = "Medium" ∧ t.estimated_time = 7 ∧ t.section_id = sid := by
  unfold rowTasks
  rcases h with h | h
  · rw [h, if_neg (by decide), if_pos (Or.inl rfl)]
    exact ⟨_, List.mem_cons_self _ _, rfl, rfl, rfl, rfl⟩
  · rw [h, if_neg (by decide), if_pos (Or.inr rfl)]
    exact ⟨_, List.mem_cons_self _ _, rfl, rfl, rfl, rfl⟩

lemma rowsTasks_exists (sid sname : String) (rs : List BreakdownRow)
    (r : BreakdownRow) (P : Task → Prop)
    (hP : ∀ c, ∃ t ∈ (rowTasks sid sname r c).1, P t) :
    r ∈ rs → ∀ c, ∃ t ∈ (rowsTasks sid sname rs c).1, P t := by
  induction rs with
  | nil =>
    intro hr
    exact absurd hr (List.not_mem_nil r)
  | cons r0 rs ih =>
    intro hr c
    unfold rowsTasks
    dsimp only
    rcases List.mem_cons.mp hr with h | h
    · subst h
      obtain ⟨t, ht, hPt⟩ := hP c
      exact ⟨t, List.mem_append.mpr (Or.inl ht), hPt⟩
    · obtain ⟨t, ht, hPt⟩ := ih h (rowTasks sid sname r0 c).2
      exact ⟨t, List.mem_append.mpr (Or.inr ht), hPt⟩

lemma invTasks_exists (ds : List DetailedInventoryStatus)
    (d : DetailedInventoryStatus) (P : Task → Prop)
    (hP : ∀ c, ∃ t ∈ (rowsTasks d.section_id d.section_name d.get_item_breakdown c).1, P t) :
    d ∈ ds → ∀ c, ∃ t ∈ (invTasks ds c).1, P t := by
  induction ds with
  | nil =>
    intro hd
    exact absurd hd (List.not_mem_nil d)
  | cons d0 ds ih =>
    intro hd c
    unfold invTasks
    dsimp only
    rcases List.mem_cons.mp hd with h | h
    · subst h
      obtain ⟨t, ht, hPt⟩ := hP c
      exact ⟨t, List.mem_append.mpr (Or.inl ht), hPt⟩
    · obtain ⟨t, ht, hPt⟩ := ih h (rowsTasks d0.section_id d0.section_name d0.get_item_breakdown c).2
      exact ⟨t, List.mem_append.mpr (Or.inr ht), hPt⟩

/-- Claim C5 (amended): tasks are emitted in order, first one Relocate task
per misplaced item (priority Medium, effort 5, description naming both the
current and the expected section), then the inventory tasks: every inventory
task is either a Restock for a Sold Out row (priority High, effort 10 — the
Low Stock restock branch is dead because the classifier never returns Low
Stock, and its effort would be 10, not 8) or a Check for a Misplaced Only or
Partially Misplaced row (priority Medium, effort 7); no Remove task is ever
generated, because the Remove branches fire only on the statuses Overstock
and Unexpected Item, which the classifier never assigns — in particular a
Surplus condition produces no task. -/
theorem tasks_structure (detailed : List DetailedInventoryStatus)
    (misplaced : List MisplacedItem) :
    ∃ inv,
      generateTasks detailed misplaced =
        (misplaced.enumFrom 1).map (fun p =>
          { task_id := "RELOCATE_" ++ pad3 p.1
            description := relocateDescription p.2
            section_id := p.2.expected_section
            priority := "Medium"
            task_type := "Relocate"
            estimated_time := 5 : Task }) ++ inv ∧
      (∀ t ∈ inv,
        (t.task_type = "Restock" ∧ t.priority = "High" ∧ t.estimated_time = 10) ∨
        (t.task_type = "Check" ∧ t.priority = "Medium" ∧ t.estimated_time = 7)) ∧
      (∀ t ∈ generateTasks detailed misplaced, t.task_type ≠ "Remove") ∧
      (∀ d ∈ detailed, ∀ r ∈ d.get_item_breakdown,
        (r.availability_status = "Sold Out" →
          ∃ t ∈ inv, t.task_type = "Restock" ∧ t.priority = "High" ∧
            t.estimated_time = 10 ∧ t.section_id = d.section_id) ∧
        ((r.availability_status = "Misplaced Only" ∨
            r.availability_status = "Partially Misplaced") →
          ∃ t ∈ inv, t.task_type = "Check" ∧ t.priority = "Medium" ∧
            t.estimated_time = 7 ∧ t.section_id = d.section_id)) := by
  have hgen : generateTasks detailed misplaced =
      (misplaced.enumFrom 1).map (fun p =>
        { task_id := "RELOCATE_" ++ pad3 p.1
          description := relocateDescription p.2
          section_id := p.2.expected_section
          priority := "Medium"
          task_type := "Relocate"
          estimated_time := 5 : Task }) ++
        (invTasks detailed (relocateTasks misplaced 1).2).1 := by
    unfold generateTasks
    dsimp only
    rw [relocateTasks_eq misplaced 1]
  refine ⟨(invTasks detailed (relocateTasks misplaced 1).2).1, hgen, ?_, ?_, ?_⟩
  · exact invTasks_shape detailed _
  · intro t ht
    rw [hgen] at ht
    rcases List.mem_append.mp ht with h | h
    · obtain ⟨p, _, rfl⟩ := List.mem_map.mp h
      show ("Relocate" : String) ≠ "Remove"
      decide
    · rcases invTasks_shape detailed _ t h with ⟨h1, _, _⟩ | ⟨h1, _, _⟩ <;>
        rw [h1] <;> decide
  · intro d hd r hr
    constructor
    · intro hstat
      exact invTasks_exists detailed d _
        (rowsTasks_exists d.section_id d.section_name d.get_item_breakdown r _
          (fun c => rowTasks_sold_out d.section_id d.section_name r c hstat) hr)
        hd (relocateTasks misplaced 1).2
    · intro hstat
      exact invTasks_exists detailed d _
        (rowsTasks_exists d.section_id d.section_name d.get_item_breakdown r _
          (fun c => rowTasks_check d.section_id d.section_name r c hstat) hr)
        hd (relocateTasks misplaced 1).2

/-- Witness for tasks_structure: a Sold Out row yields a High-priority
Restock task of effort 10 in the generated list. -/
theorem tasks_structure_witness :
    ∃ t ∈ generateTasks [soldOutStatus] [], t.task_type = "Restock" ∧
      t.priority = "High" ∧ t.estimated_time = 10 ∧ t.section_id = "S2" := by
  obtain ⟨inv, h1, h2, h3, h4⟩ := tasks_structure [soldOutStatus] []
  obtain ⟨r, hr, hstat⟩ :
      ∃ r ∈ soldOutStatus.get_item_breakdown, r.availability_status = "Sold Out" := by
    decide
  obtain ⟨t, ht, hprops⟩ :=
    (h4 soldOutStatus (List.mem_cons_self _ _) r hr).1 hstat
  refine ⟨t, ?_, hprops⟩
  rw [h1]
  exact List.mem_append.mpr (Or.inr ht)

/-- Claim C5 counterexample: a (section, item type) pair with a positive
surplus (expected 1, detected 3) yields no Remove task — in fact no task at
all — refuting the claim that a Remove task is emitted whenever the pair has
a Surplus condition. -/
theorem tasks_surplus_counterexample :
    (∀ t ∈ generateTasks [surplusStatus] [], t.task_type ≠ "Remove") ∧
    (∃ r ∈ surplusStatus.get_item_breakdown, 0 < r.surplus) := by
  constructor
  · decide
  · decide

/-! ### Detector absence (claim C6) -/

lemma calc_status_error (sections : List PlanogramSection)
    (items : List DetectedItem) (mis : List MisplacedItem) (hs : sections ≠ []) :
    ∃ e, calculate_detailed_inventory_status sections items mis = Except.error e := by
  cases sections with
  | nil => exact absurd rfl hs
  | cons s rest =>
    by_cases hlen : 0 < s.expected_items.length
    · refine ⟨"AttributeError: PlanogramSection has no attribute expected_visible_count", ?_⟩
      unfold calculate_detailed_inventory_status
      dsimp only
      rw [if_pos hlen]
    · refine ⟨"TypeError: unexpected keyword argument expected_visible_items", ?_⟩
      unfold calculate_detailed_inventory_status
      dsimp only
      rw [if_neg hlen]

/-- Claim C6 (code bug): with the detector unready the pipeline proceeds on an
empty detection set, but the inventory step always raises on a nonempty
configuration (the DetailedInventoryStatus keyword names are not fields of the
stale dataclass, and the section attribute expected_visible_count does not
exist), so analyze_image returns the fully empty result with no inventory
rows at all — the Sold Out report the claim promises never happens, even
though the classifier itself would indeed return Sold Out for every expected
type given zero detections. -/
theorem detector_absence (sections : List PlanogramSection)
    (detections : List DetectedItem) (hs : sections ≠ []) :
    analyze_image sections false detections = AnalysisResults.create_empty ∧
    ¬ analyzerDetailedKwargs ⊆ detailedStatusFields ∧
    (∀ e : ℕ, 0 < e → availabilityStatus e 0 0 = "Sold Out") := by
  refine ⟨?_, by decide, ?_⟩
  · unfold analyze_image
    dsimp only
    rw [show run_object_detection false detections = [] from rfl]
    obtain ⟨e, he⟩ := calc_status_error sections
      (assign_items_to_sections sections [])
      (find_misplaced_items sections (assign_items_to_sections sections [])) hs
    rw [he]
  · intro e he
    unfold availabilityStatus
    rw [if_pos he]
    rfl

/-- Witness for detector_absence at a concrete one-section configuration. -/
theorem detector_absence_witness :
    analyze_image [waterSection] false [] = AnalysisResults.create_empty ∧
    availabilityStatus 4 0 0 = "Sold Out" :=
  ⟨(detector_absence [waterSection] [] (by decide)).1,
    (detector_absence [waterSection] [] (by decide)).2.2 4 (by decide)⟩

end Planogram
